import Mathlib

/-
  Verification of the unsubscribe-agent core (src/src/agent.ts).

  Shallow embedding notes:
  * All external effects (the decision oracle, the browser, the wall clock,
    the challenge monitor's verdicts, consent-handler outcomes) are supplied
    by an `Env` of oracles; the orchestrator itself is a pure fueled
    recursion mirroring the `while (stepCount < MAX_STEPS && !isDone)` loop
    of `processUnsubscribe`.
  * The wall clock advances only across await points (spec section 5 lists
    the suspension points); consecutive synchronous statements read the same
    clock value, so `new Date().toISOString()` and the adjacent `Date.now()`
    coincide.
  * Best-effort browser reads that the code never guards (screenshot inside
    a terminal branch, `page.content`, `page.textContent`) are modelled as
    total; the failure points the code itself handles (navigation, plan
    parsing, action execution) are modelled explicitly.
  * Logger entries are modelled by their message strings at orchestrator
    level; the structured context objects and sub-component log lines are
    elided, since no claim depends on their contents.
-/

namespace UnsubAgent

/-- Substring helper: does `cs` start with `needle`?  Mirrors the prefix
test underlying JavaScript `String.prototype.includes`. -/
def listStartsWith : List Char → List Char → Bool
  | _, [] => true
  | [], _ :: _ => false
  | c :: cs, d :: ds => c == d && listStartsWith cs ds

/-- Substring containment on character lists, the semantics of JavaScript
`hay.includes(needle)` (the empty needle is always contained). -/
def listContainsSub : List Char → List Char → Bool
  | [], needle => needle.isEmpty
  | c :: cs, needle => listStartsWith (c :: cs) needle || listContainsSub cs needle

/-- String-level `hay.includes(needle)`. -/
def strContainsSub (hay needle : String) : Bool :=
  listContainsSub hay.data needle.data

/-- String-level `s.startsWith(p)`. -/
def strStartsWith (s p : String) : Bool :=
  listStartsWith s.data p.data

/-- JavaScript `toLowerCase` for the ASCII text this agent matches on. -/
def jsLower (s : String) : String :=
  String.mk (s.data.map Char.toLower)

-- -------------------- Tunables (agent.ts lines 63-76) --------------------

def MAX_STEPS : Nat := 5
def PLAN_PARSE_RETRIES : Nat := 2
def CAPTCHA_MAX_GRACE_MS : Nat := 45000
def ONLOAD_COOKIE_TIMEOUT_MS : Nat := 15000
def RETRY_COOKIE_TIMEOUT_MS : Nat := 7000

-- -------------------- Known phrases (agent.ts lines 80-112) --------------------

def knownSuccessPhrases : List String := [
  "you have been unsubscribed",
  "successfully unsubscribed",
  "your preferences have been updated",
  "we\x27re sorry to see you go",
  "we have removed your email",
  "you are now unsubscribed",
  "unsubscribed from future emails",
  "we\x27ve removed your address",
  "your email has been removed",
  "thank you for unsubscribing",
  "unsubscribe successfully",
  "unsubscribed successfully",
  "subscription updated",
  "opt-out confirmed",
  "preferences saved",
  "email preferences updated"]

def knownFailurePhrases : List String := [
  "captcha required",
  "please complete the captcha",
  "verify you are human",
  "please solve the captcha",
  "unsubscribe failed",
  "error occurred",
  "we could not unsubscribe you",
  "try again later",
  "something went wrong",
  "access denied",
  "blocked due to unusual activity"]

-- -------------------- Data model (agent.ts lines 11-59) --------------------

inductive Method
  | GET
  | POST
  | MAILTO
deriving DecidableEq, Repr

structure UnsubscribeLink where
  url : String
  text : String
  method : Method
deriving DecidableEq, Repr

/-- One action as proposed by the plan oracle (the template fields of
`ActionStep` before execution). -/
structure PlanAction where
  action : String
  selector : String
  value : Option String := none
  description : Option String := none
deriving DecidableEq, Repr

/-- The oracle's parsed plan: `{ actions, finish }`; absent `actions`
collapses to `[]` via `plan?.actions || []`, absent `finish` to `false`. -/
structure Plan where
  actions : List PlanAction
  finish : Bool
deriving DecidableEq, Repr

/-- A recorded step.  Every step pushed to the run history has its
timestamps set, so they are modelled as plain naturals (milliseconds). -/
structure ActionStep where
  action : String
  selector : String
  value : Option String
  description : Option String
  result : Option String
  error : Option String
  startedAt : Nat
  finishedAt : Nat
  durationMs : Nat
deriving DecidableEq, Repr

/-- Terminal output of a run.  `logs` keeps the orchestrator-level message
strings; `jsonlLogs` is their line-delimited serialization. -/
structure UnsubscribeResult where
  success : Bool
  method : String
  error : Option String := none
  details : Option String := none
  captchaBlocked : Option Bool := none
  steps : Option (List ActionStep) := none
  screenshot : Option String := none
  logs : List String := []
  runId : Option String := none
  jsonlLogs : Option String := none
deriving DecidableEq, Repr

-- -------------------- Action executor (agent.ts lines 587-648) --------------------

/-- The action kinds with a case in `performOnce`; any other kind throws
`Unknown action: ...`. -/
def knownActionKinds : List String := ["click", "type", "select", "check", "scroll", "wait"]

/-- One attempt at an action.  For a known kind the outcome comes from the
environment (`none` = success, `some msg` = the thrown error's message);
an unknown kind always throws its deterministic message. -/
def performOnce (act : PlanAction) (envOutcome : Option String) : Option String :=
  if knownActionKinds.contains act.action then envOutcome
  else some ("Unknown action: " ++ act.action)

/-- Overlay-like error signatures checked on the lowercased message
(agent.ts lines 623-630). -/
def overlaySignatures : List String :=
  ["not visible", "not receiv", "intercepted", "timeout", "element is outside",
   "detached from dom"]

def looksOverlay (msg : String) : Bool :=
  overlaySignatures.any (fun s => strContainsSub (jsLower msg) s)

/-- Result of `performActionWithCookieRetry` plus instrumentation:
whether the consent handler was invoked and whether the action was
retried. -/
structure ActOutcome where
  ok : Bool
  err : Option String
  consentInvoked : Bool
  retried : Bool
deriving DecidableEq, Repr

/-- Model of `performActionWithCookieRetry`: first attempt; on an
overlay-like failure invoke the consent handler (budget 7000 ms) and, only
if it reports a dismissal, retry exactly once.  `o1`/`o2` are the
environment outcomes of the two attempts, `cleared` the consent handler's
report. -/
def performActionWithCookieRetry (act : PlanAction) (o1 : Option String)
    (cleared : Bool) (o2 : Option String) : ActOutcome :=
  match performOnce act o1 with
  | none => { ok := true, err := none, consentInvoked := false, retried := false }
  | some msg =>
    if looksOverlay msg then
      if cleared then
        match performOnce act o2 with
        | none => { ok := true, err := none, consentInvoked := true, retried := true }
        | some msg2 =>
          { ok := false, err := some msg2, consentInvoked := true, retried := true }
      else
        { ok := false, err := some msg, consentInvoked := true, retried := false }
    else
      { ok := false, err := some msg, consentInvoked := false, retried := false }

-- -------------------- Outcome classifier (agent.ts lines 753-779) --------------------

def hasSuccessPhrase (t : String) : Bool :=
  knownSuccessPhrases.any (fun p => strContainsSub (jsLower t) p)

def hasFailurePhrase (t : String) : Bool :=
  knownFailurePhrases.any (fun p => strContainsSub (jsLower t) p)

/-- The classifier of spec section 4.5: case-insensitive substring match of
the body text against the two phrase sets. -/
def classify (t : String) : Bool × Bool :=
  (hasSuccessPhrase t, hasFailurePhrase t)

inductive Decision
  | done
  | failed
  | proceed
deriving DecidableEq, Repr

/-- The reclassification branch order of the loop body: `plan?.finish ||
hasSuccess` wins, then `hasFailure && !hasSuccess`, otherwise continue. -/
def reclassify (finish hasS hasF : Bool) : Decision :=
  if finish || hasS then Decision.done
  else if hasF && !hasS then Decision.failed
  else Decision.proceed

-- -------------------- Plan oracle client (agent.ts lines 672-693) --------------------

/-- The retry loop `for (let r = 0; r <= PLAN_PARSE_RETRIES; r++)`:
attempt `r`, break on the first parse success, give up after the last
retry.  `none` models the thrown `Invalid AI plan JSON`. -/
def planAttemptLoop (attempts : Nat → Option Plan) : Nat → Nat → Option Plan
  | _, 0 => none
  | r, fuel + 1 =>
    match attempts r with
    | some p => some p
    | none =>
      if r < PLAN_PARSE_RETRIES then planAttemptLoop attempts (r + 1) fuel else none

def requestPlan (attempts : Nat → Option Plan) : Option Plan :=
  planAttemptLoop attempts 0 (PLAN_PARSE_RETRIES + 1)

-- -------------------- Environment --------------------

/-- Oracles for every external effect of one `processUnsubscribe` run.
`captchaCleared k` is the verdict of the `k`-th invocation of
`waitOutCaptchaIfPresent` (0 = the initial gate, `i + 1` = the check after
loop iteration `i`); `planAttempt i r` the parse result of attempt `r` in
iteration `i`; `act1Err i j` / `act2Err i j` the outcomes of the two
attempts at action `j` of iteration `i`; `dtAction` / `dtIter` the clock
advances across the corresponding awaits. -/
structure Env where
  runId : String
  screenshotData : String
  catchScreenshot : Option String
  navError : Option String
  cookieOnLoad : Bool
  captchaCleared : Nat → Bool
  planAttempt : Nat → Nat → Option Plan
  act1Err : Nat → Nat → Option String
  actCookieCleared : Nat → Nat → Bool
  act2Err : Nat → Nat → Option String
  cookieMidFlow : Nat → Bool
  pageText : Nat → String
  dtAction : Nat → Nat → Nat
  dtIter : Nat → Nat
  t0 : Nat

def shot (env : Env) : String :=
  "data:image/png;base64," ++ env.screenshotData

-- -------------------- Step execution (agent.ts lines 695-724) --------------------

/-- Execute the actions of one plan in order.  Returns the new step
records (in execution order), the final `lastResult` string and the final
clock.  `startedAt`/`t0` are read before the awaited action, `finishedAt`
and the closing `Date.now()` after it. -/
def execActions (env : Env) (i : Nat) :
    List PlanAction → Nat → String → Nat → List ActionStep × String × Nat
  | [], _, lastResult, now => ([], lastResult, now)
  | act :: rest, j, _, now =>
    let o := performActionWithCookieRetry act (env.act1Err i j)
      (env.actCookieCleared i j) (env.act2Err i j)
    let fin := now + env.dtAction i j
    let errMsg := o.err.getD "unknown error"
    let step : ActionStep :=
      { action := act.action, selector := act.selector, value := act.value,
        description := act.description,
        result := if o.ok then some "success" else none,
        error := if o.ok then none else some errMsg,
        startedAt := now, finishedAt := fin, durationMs := fin - now }
    let lastResult' := if o.ok then "success" else "error: " ++ errMsg
    let rec_ := execActions env i rest (j + 1) lastResult' fin
    (step :: rec_.1, rec_.2.1, rec_.2.2)

-- -------------------- Terminal results --------------------

def mkJsonl (logs : List String) : Option String :=
  some (String.intercalate "\n" logs)

def finalSuccessResult (env : Env) (steps : List ActionStep)
    (logs : List String) : UnsubscribeResult :=
  { success := true, method := "AUTOMATED",
    details := some "Unsubscribe completed",
    steps := some steps, screenshot := some (shot env),
    logs := logs, runId := some env.runId, jsonlLogs := mkJsonl logs }

def captchaGateResult (env : Env) (steps : List ActionStep)
    (logs : List String) : UnsubscribeResult :=
  { success := false, method := "AUTOMATED", captchaBlocked := some true,
    details := some "CAPTCHA persisted after grace window. Manual intervention likely required.",
    steps := some steps, screenshot := some (shot env),
    logs := logs, runId := some env.runId, jsonlLogs := mkJsonl logs }

def captchaMidResult (env : Env) (steps : List ActionStep)
    (logs : List String) : UnsubscribeResult :=
  { success := false, method := "AUTOMATED", captchaBlocked := some true,
    details := some "CAPTCHA appeared mid-flow and persisted after grace window.",
    steps := some steps, screenshot := some (shot env),
    logs := logs, runId := some env.runId, jsonlLogs := mkJsonl logs }

def failurePhraseResult (env : Env) (steps : List ActionStep)
    (logs : List String) : UnsubscribeResult :=
  { success := false, method := "AUTOMATED",
    details := some "Failure phrase detected and no success confirmation.",
    steps := some steps, screenshot := some (shot env),
    logs := logs, runId := some env.runId, jsonlLogs := mkJsonl logs }

def errorResult (env : Env) (msg : String) (steps : List ActionStep)
    (logs : List String) : UnsubscribeResult :=
  { success := false, method := "ERROR", error := some msg,
    steps := some steps, screenshot := env.catchScreenshot,
    logs := logs, runId := some env.runId, jsonlLogs := mkJsonl logs }

/-- A run's result together with instrumentation of the events the claims
talk about. -/
structure RunInfo where
  result : UnsubscribeResult
  browserLaunched : Bool
  planRequests : Nat
  captchaNotCleared : Bool
  planExhausted : Bool
  budgetExhausted : Bool
deriving Repr

-- -------------------- Main loop (agent.ts lines 650-794) --------------------

/-- The `while (stepCount < MAX_STEPS && !isDone)` loop; `fuel` is
`MAX_STEPS - i`, `i` the current `stepCount`.  Exhausted fuel models the
loop guard failing, after which the code falls through to the final
success return. -/
def runLoop (env : Env) (link : UnsubscribeLink) :
    Nat → Nat → List ActionStep → String → Nat → List String → RunInfo
  | 0, i, steps, _, _, logs =>
    { result := finalSuccessResult env steps logs, browserLaunched := true,
      planRequests := i, captchaNotCleared := false, planExhausted := false,
      budgetExhausted := true }
  | fuel + 1, i, steps, lastResult, now, logs =>
    let logs1 := logs ++ ["[processUnsubscribe] Asking AI for next actions"]
    match requestPlan (env.planAttempt i) with
    | none =>
      { result :=
          errorResult env "Invalid AI plan JSON" steps
            (logs1 ++ ["[processUnsubscribe] Error"]),
        browserLaunched := true, planRequests := i + 1,
        captchaNotCleared := false, planExhausted := true,
        budgetExhausted := false }
    | some plan =>
      let ex := execActions env i plan.actions 0 lastResult now
      let steps' := steps ++ ex.1
      let now' := ex.2.2 + env.dtIter i
      if env.captchaCleared (i + 1) then
        match reclassify plan.finish (hasSuccessPhrase (env.pageText i))
            (hasFailurePhrase (env.pageText i)) with
        | Decision.done =>
          { result := finalSuccessResult env steps' logs1,
            browserLaunched := true, planRequests := i + 1,
            captchaNotCleared := false, planExhausted := false,
            budgetExhausted := false }
        | Decision.failed =>
          { result := failurePhraseResult env steps' logs1,
            browserLaunched := true, planRequests := i + 1,
            captchaNotCleared := false, planExhausted := false,
            budgetExhausted := false }
        | Decision.proceed =>
          runLoop env link fuel (i + 1) steps' ex.2.1 now' logs1
      else
        { result := captchaMidResult env steps' logs1,
          browserLaunched := true, planRequests := i + 1,
          captchaNotCleared := true, planExhausted := false,
          budgetExhausted := false }

/-- The whole of `processUnsubscribe`: MAILTO short-circuit, navigation
(whose failure is caught into an ERROR result), the initial consent and
challenge gates, then the main loop. -/
def processUnsubscribe (env : Env) (link : UnsubscribeLink) : RunInfo :=
  let logs0 := ["[processUnsubscribe] Starting on link"]
  if link.method = Method.MAILTO then
    let logsM := logs0 ++ ["[processUnsubscribe] MAILTO detected"]
    { result :=
        { success := true, method := "MAILTO",
          details := some ("Send email to " ++ link.url),
          logs := logsM, runId := some env.runId, jsonlLogs := mkJsonl logsM },
      browserLaunched := false, planRequests := 0, captchaNotCleared := false,
      planExhausted := false, budgetExhausted := false }
  else
    let logs1 := logs0 ++ ["[processUnsubscribe] Navigating"]
    match env.navError with
    | some msg =>
      { result := errorResult env msg [] (logs1 ++ ["[processUnsubscribe] Error"]),
        browserLaunched := true, planRequests := 0, captchaNotCleared := false,
        planExhausted := false, budgetExhausted := false }
    | none =>
      if env.captchaCleared 0 then
        runLoop env link MAX_STEPS 0 [] "" env.t0 logs1
      else
        { result := captchaGateResult env [] logs1, browserLaunched := true,
          planRequests := 0, captchaNotCleared := true, planExhausted := false,
          budgetExhausted := false }

-- -------------------- Consent handler (agent.ts lines 318-450) --------------------

/-- Snapshot of one frame in one poll round: whether a known CMP accept
button is visible, whether the generic role/text fallback matches, and
whether `frameHasCookieUi` still sees a consent marker. -/
structure FrameView where
  knownVisible : Bool
  genericVisible : Bool
  hasCookieUi : Bool
deriving DecidableEq, Repr

structure CookieEnv where
  frames : Nat → List FrameView
  budgetRounds : Nat

/-- A frame produces a dismissal click in a round iff one of the two
selector families matches. -/
def frameWouldClick (f : FrameView) : Bool :=
  f.knownVisible || f.genericVisible

def roundClicks (fs : List FrameView) : Nat :=
  (fs.filter frameWouldClick).length

/-- The poll loop of `acceptCookieBanners`: while the time budget permits
(modelled as `fuel` rounds), click in every frame with a visible accept
control; if a round clicked nothing and no frame shows a consent marker,
return; on budget exhaustion return the progress so far.  Returns
`(clickedAny, total dismissal clicks)`. -/
def acceptCookieBannersAux (env : CookieEnv) :
    Nat → Nat → Bool → Nat → Bool × Nat
  | 0, _, clickedAny, clicks => (clickedAny, clicks)
  | fuel + 1, round, clickedAny, clicks =>
    let fs := env.frames round
    if fs.any frameWouldClick then
      acceptCookieBannersAux env fuel (round + 1) true (clicks + roundClicks fs)
    else if fs.all (fun f => !f.hasCookieUi) then
      (clickedAny, clicks)
    else
      acceptCookieBannersAux env fuel (round + 1) clickedAny clicks

def acceptCookieBanners (env : CookieEnv) : Bool × Nat :=
  acceptCookieBannersAux env env.budgetRounds 0 false 0

-- -------------------- Link extraction (agent.ts lines 461-505) --------------------

/-- JavaScript whitespace as far as `\s` matters for ASCII attribute
syntax (space, tab, newline, carriage return, form feed, vertical tab). -/
def isJsSpace (c : Char) : Bool :=
  c == ' ' || c == '\t' || c == '\n' || c == '\r' ||
  c == Char.ofNat 12 || c == Char.ofNat 11

def isQuote (c : Char) : Bool :=
  c == '"' || c == Char.ofNat 39

/-- Try to match the regex `href\s*=\s*["']([^"']+)["']` (case-insensitive
on the attribute name) at the head of `cs`; on success return the captured
url and the remainder after the match. -/
def tryMatchHref (cs : List Char) : Option (String × List Char) :=
  match cs with
  | c1 :: c2 :: c3 :: c4 :: rest =>
    if c1.toLower == 'h' && c2.toLower == 'r' && c3.toLower == 'e' &&
        c4.toLower == 'f' then
      match rest.dropWhile isJsSpace with
      | e0 :: r2 =>
        if e0 == '=' then
          match r2.dropWhile isJsSpace with
          | q :: r4 =>
            if isQuote q then
              let cap := r4.takeWhile (fun c => !isQuote c)
              let r5 := r4.dropWhile (fun c => !isQuote c)
              if cap.isEmpty then none
              else
                match r5 with
                | _ :: r6 => some (String.mk cap, r6)
                | [] => none
            else none
          | [] => none
        else none
      | [] => none
    else none
  | _ => none

/-- Successive non-overlapping matches, scanning left to right (the `g`
flag).  The fuel equals the remaining length, which every step consumes at
least one character of, so it never truncates. -/
def hrefScan : Nat → List Char → List String
  | 0, _ => []
  | _ + 1, [] => []
  | fuel + 1, c :: cs =>
    match tryMatchHref (c :: cs) with
    | some (cap, rest) => cap :: hrefScan fuel rest
    | none => hrefScan fuel cs

def matchAllHrefs (s : String) : List String :=
  hrefScan s.data.length s.data

/-- The filter `/unsub|opt-?out|preferences/i`. -/
def unsubPattern (u : String) : Bool :=
  let lu := jsLower u
  strContainsSub lu "unsub" || strContainsSub lu "optout" ||
  strContainsSub lu "opt-out" || strContainsSub lu "preferences"

/-- `Array.from(new Set(xs))`: first occurrences, in order. -/
def dedupAux (seen : List String) : List String → List String
  | [] => []
  | x :: xs =>
    if seen.contains x then dedupAux seen xs
    else x :: dedupAux (seen ++ [x]) xs

def dedupFirst (xs : List String) : List String :=
  dedupAux [] xs

/-- The regex fallback of `extractUnsubscribeLinks`: href captures,
filtered by the unsubscribe pattern, deduplicated, each marked MAILTO for
`mailto:` urls and GET otherwise. -/
def regexFallback (snippet : String) : List UnsubscribeLink :=
  (dedupFirst ((matchAllHrefs snippet).filter unsubPattern)).map fun url =>
    { url := url, text := "Unsubscribe",
      method := if strStartsWith url "mailto:" then Method.MAILTO else Method.GET }

/-- What the oracle call can do: throw (network failure — caught by the
outer try, empty list), or return text whose `JSON.parse` fails (regex
fallback), parses to an array (taken as the links), or parses to a
non-array (empty list). -/
inductive ParseOutcome
  | failure
  | arr (links : List UnsubscribeLink)
  | notArr
deriving DecidableEq, Repr

inductive AiCall
  | throws
  | returns (p : ParseOutcome)
deriving DecidableEq, Repr

/-- `s.slice(-n)`: the last `n` characters. -/
def lastChars (n : Nat) (s : String) : String :=
  String.mk (s.data.drop (s.data.length - n))

/-- Model of `extractUnsubscribeLinks`: truncate long input to its last
5999 characters, call the oracle on the snippet, and handle every oracle
outcome totally.  Returns the links and the snippet that was sent. -/
def extractUnsubscribeLinks (oracle : String → AiCall) (html : String) :
    List UnsubscribeLink × String :=
  let snippet := if html.length > 5999 then lastChars 5999 html else html
  let links :=
    match oracle snippet with
    | AiCall.throws => []
    | AiCall.returns ParseOutcome.failure => regexFallback snippet
    | AiCall.returns (ParseOutcome.arr ls) => ls
    | AiCall.returns ParseOutcome.notArr => []
  (links, snippet)

-- -------------------- Concrete fixtures --------------------

def emptyPlan : Plan := { actions := [], finish := false }

/-- An environment in which navigation succeeds, the challenge always
clears, every plan parses to an empty non-finishing plan and the page text
never matches a phrase, so the run spends its whole step budget. -/
def baseEnv : Env :=
  { runId := "run_1", screenshotData := "IMG", catchScreenshot := some "IMG",
    navError := none, cookieOnLoad := false,
    captchaCleared := fun _ => true,
    planAttempt := fun _ _ => some emptyPlan,
    act1Err := fun _ _ => none,
    actCookieCleared := fun _ _ => false,
    act2Err := fun _ _ => none,
    cookieMidFlow := fun _ => false,
    pageText := fun _ => "",
    dtAction := fun _ _ => 0,
    dtIter := fun _ => 0,
    t0 := 0 }

def getLink : UnsubscribeLink :=
  { url := "https://example.com/unsub", text := "Unsubscribe", method := Method.GET }

def mailtoLink : UnsubscribeLink :=
  { url := "mailto:unsub@example.com", text := "Unsubscribe", method := Method.MAILTO }

/-- Like `baseEnv` but the challenge monitor reports not-cleared at the
first mid-flow check (invocation 1). -/
def captchaEnv : Env := { baseEnv with captchaCleared := fun k => !(k == 1) }

/-- Like `baseEnv` but every plan-parse attempt fails. -/
def badPlanEnv : Env := { baseEnv with planAttempt := fun _ _ => none }

-- ==================== Claim C5 ====================

/-- C5: for every link with method MAILTO, `processUnsubscribe` returns
success true, method "MAILTO" and details "Send email to " followed by the
url, without launching a browser (hence without navigating). -/
theorem c5_mailto_short_circuit (env : Env) (link : UnsubscribeLink)
    (h : link.method = Method.MAILTO) :
    (processUnsubscribe env link).result.success = true ∧
    (processUnsubscribe env link).result.method = "MAILTO" ∧
    (processUnsubscribe env link).result.details =
      some ("Send email to " ++ link.url) ∧
    (processUnsubscribe env link).browserLaunched = false := by
  simp [processUnsubscribe, h]

/-- Scenario A of the spec, via `c5_mailto_short_circuit`. -/
theorem c5_mailto_short_circuit_witness :
    (processUnsubscribe baseEnv mailtoLink).result.success = true ∧
    (processUnsubscribe baseEnv mailtoLink).result.method = "MAILTO" ∧
    (processUnsubscribe baseEnv mailtoLink).result.details =
      some "Send email to mailto:unsub@example.com" ∧
    (processUnsubscribe baseEnv mailtoLink).browserLaunched = false :=
  c5_mailto_short_circuit baseEnv mailtoLink rfl

-- ==================== Claim C7 ====================

/-- C7: outcome classification is a case-insensitive substring match
against the two fixed phrase sets: a success phrase and no failure phrase
gives `(true, false)`; when both sets fire the reclassification decision
is Done (success precedence); when neither fires both flags are false and
the decision is to continue the loop. -/
theorem c7_outcome_classification :
    (∀ t : String,
      (∃ p ∈ knownSuccessPhrases, strContainsSub (jsLower t) p = true) →
      (∀ q ∈ knownFailurePhrases, strContainsSub (jsLower t) q = false) →
      classify t = (true, false)) ∧
    (∀ (t : String) (finish : Bool),
      hasSuccessPhrase t = true → hasFailurePhrase t = true →
      reclassify finish (hasSuccessPhrase t) (hasFailurePhrase t) =
        Decision.done) ∧
    (∀ t : String,
      (∀ p ∈ knownSuccessPhrases, strContainsSub (jsLower t) p = false) →
      (∀ q ∈ knownFailurePhrases, strContainsSub (jsLower t) q = false) →
      classify t = (false, false) ∧
      reclassify false (hasSuccessPhrase t) (hasFailurePhrase t) =
        Decision.proceed) := by
  refine ⟨?_, ?_, ?_⟩
  · rintro t ⟨p, hp, hc⟩ hf
    have hs : hasSuccessPhrase t = true := by
      simp only [hasSuccessPhrase, List.any_eq_true]
      exact ⟨p, hp, hc⟩
    have hfb : hasFailurePhrase t = false := by
      simp only [hasFailurePhrase, List.any_eq_false]
      intro q hq
      simp [hf q hq]
    simp [classify, hs, hfb]
  · intro t finish h1 h2
    rw [h1, h2]
    simp [reclassify]
  · intro t hsn hfn
    have hs : hasSuccessPhrase t = false := by
      simp only [hasSuccessPhrase, List.any_eq_false]
      intro p hp
      simp [hsn p hp]
    have hfb : hasFailurePhrase t = false := by
      simp only [hasFailurePhrase, List.any_eq_false]
      intro q hq
      simp [hfn q hq]
    rw [hs, hfb]
    exact ⟨by simp [classify, hs, hfb], by simp [reclassify]⟩

/-- Concrete classifications via `c7_outcome_classification`. -/
theorem c7_outcome_classification_witness :
    classify "Thank you for unsubscribing" = (true, false) ∧
    reclassify false
      (hasSuccessPhrase "You have been unsubscribed but an error occurred")
      (hasFailurePhrase "You have been unsubscribed but an error occurred") =
      Decision.done :=
  ⟨c7_outcome_classification.1 "Thank you for unsubscribing"
      ⟨"thank you for unsubscribing", by decide, by decide⟩ (by decide),
   c7_outcome_classification.2.1
      "You have been unsubscribed but an error occurred" false
      (by decide) (by decide)⟩

-- ==================== Claim C8 ====================

theorem roundClicks_pos {fs : List FrameView}
    (h : fs.any frameWouldClick = true) : 0 < roundClicks fs := by
  rcases List.any_eq_true.mp h with ⟨f, hf, hfc⟩
  have hmem : f ∈ fs.filter frameWouldClick := List.mem_filter.mpr ⟨hf, hfc⟩
  exact List.length_pos.mpr (List.ne_nil_of_mem hmem)

theorem acceptCookieBannersAux_iff (env : CookieEnv) :
    ∀ fuel round b n, (b = true ↔ 0 < n) →
      ((acceptCookieBannersAux env fuel round b n).1 = true ↔
        0 < (acceptCookieBannersAux env fuel round b n).2) := by
  intro fuel
  induction fuel with
  | zero =>
    intro round b n h
    simpa [acceptCookieBannersAux] using h
  | succ k ih =>
    intro round b n h
    simp only [acceptCookieBannersAux]
    split
    · next hany =>
      apply ih
      have := roundClicks_pos hany
      constructor
      · intro; omega
      · intro; rfl
    · split
      · simpa using h
      · exact ih _ _ _ h

/-- C8: `acceptCookieBanners` returns true iff at least one dismissal
click occurred during the call; when no frame shows any consent control or
marker in the first round (and the budget permits at least one round), it
returns false with zero clicks, i.e. without mutating page state; on
budget exhaustion it returns the partial progress rather than failing. -/
theorem c8_consent_handler :
    (∀ env : CookieEnv,
      ((acceptCookieBanners env).1 = true ↔ 0 < (acceptCookieBanners env).2)) ∧
    (∀ env : CookieEnv, 0 < env.budgetRounds →
      (∀ f ∈ env.frames 0, f.knownVisible = false ∧ f.genericVisible = false ∧
        f.hasCookieUi = false) →
      acceptCookieBanners env = (false, 0)) := by
  constructor
  · intro env
    exact acceptCookieBannersAux_iff env env.budgetRounds 0 false 0 (by simp)
  · intro env hb hf
    obtain ⟨k, hk⟩ := Nat.exists_eq_succ_of_ne_zero (Nat.pos_iff_ne_zero.mp hb)
    have hany : (env.frames 0).any frameWouldClick = false := by
      rw [List.any_eq_false]
      intro f hmem
      obtain ⟨h1, h2, _⟩ := hf f hmem
      simp [frameWouldClick, h1, h2]
    have hall : (env.frames 0).all (fun f => !f.hasCookieUi) = true := by
      rw [List.all_eq_true]
      intro f hmem
      obtain ⟨_, _, h3⟩ := hf f hmem
      simp [h3]
    simp [acceptCookieBanners, hk, acceptCookieBannersAux, hany, hall]

def quietCookieEnv : CookieEnv :=
  { frames := fun _ =>
      [{ knownVisible := false, genericVisible := false, hasCookieUi := false }],
    budgetRounds := 1 }

/-- Non-interference at a concrete consent-free page, via
`c8_consent_handler`. -/
theorem c8_consent_handler_witness :
    acceptCookieBanners quietCookieEnv = (false, 0) :=
  c8_consent_handler.2 quietCookieEnv (by decide) (by
    intro f hf
    have hsingle :
        f = { knownVisible := false, genericVisible := false, hasCookieUi := false } := by
      simpa [quietCookieEnv] using hf
    subst hsingle
    exact ⟨rfl, rfl, rfl⟩)


-- ==================== Loop invariants shared by several claims ====================

/-- When the MAILTO short-circuit, navigation failure and the initial
challenge gate are all ruled out, a run is exactly the main loop started
with full fuel and empty history. -/
theorem processUnsubscribe_eq_runLoop (env : Env) (link : UnsubscribeLink)
    (hm : ¬link.method = Method.MAILTO) (hn : env.navError = none)
    (hc : env.captchaCleared 0 = true) :
    processUnsubscribe env link =
      runLoop env link MAX_STEPS 0 [] "" env.t0
        ["[processUnsubscribe] Starting on link",
         "[processUnsubscribe] Navigating"] := by
  simp [processUnsubscribe, hm, hn, hc]

theorem runLoop_planRequests (env : Env) (link : UnsubscribeLink) :
    ∀ fuel i steps lr now logs,
      (runLoop env link fuel i steps lr now logs).planRequests ≤ i + fuel := by
  intro fuel
  induction fuel with
  | zero =>
    intro i steps lr now logs
    show i ≤ i + 0
    omega
  | succ k ih =>
    intro i steps lr now logs
    simp only [runLoop]
    cases hrp : requestPlan (env.planAttempt i) with
    | none =>
      show i + 1 ≤ i + (k + 1)
      omega
    | some plan =>
      simp only
      split
      · split
        · show i + 1 ≤ i + (k + 1)
          omega
        · show i + 1 ≤ i + (k + 1)
          omega
        · exact Nat.le_trans (ih (i + 1) _ _ _ _) (by omega)
      · show i + 1 ≤ i + (k + 1)
        omega

theorem runLoop_budget (env : Env) (link : UnsubscribeLink) :
    ∀ fuel i steps lr now logs,
      (runLoop env link fuel i steps lr now logs).budgetExhausted = true →
      (runLoop env link fuel i steps lr now logs).result.success = true ∧
      (runLoop env link fuel i steps lr now logs).result.method = "AUTOMATED" ∧
      (runLoop env link fuel i steps lr now logs).result.details =
        some "Unsubscribe completed" ∧
      (runLoop env link fuel i steps lr now logs).result.error = none ∧
      (runLoop env link fuel i steps lr now logs).result.runId = some env.runId := by
  intro fuel
  induction fuel with
  | zero =>
    intro i steps lr now logs _
    simp [runLoop, finalSuccessResult]
  | succ k ih =>
    intro i steps lr now logs
    simp only [runLoop]
    cases hrp : requestPlan (env.planAttempt i) with
    | none =>
      intro h
      simp at h
    | some plan =>
      simp only
      split
      · split
        · intro h; simp at h
        · intro h; simp at h
        · intro h
          exact ih _ _ _ _ _ h
      · intro h
        simp at h

theorem runLoop_captcha (env : Env) (link : UnsubscribeLink) :
    ∀ fuel i steps lr now logs,
      (runLoop env link fuel i steps lr now logs).captchaNotCleared = true →
      (runLoop env link fuel i steps lr now logs).result.success = false ∧
      (runLoop env link fuel i steps lr now logs).result.captchaBlocked = some true ∧
      (runLoop env link fuel i steps lr now logs).result.screenshot =
        some (shot env) ∧
      (runLoop env link fuel i steps lr now logs).result.steps.isSome = true ∧
      (runLoop env link fuel i steps lr now logs).result.logs ≠ [] ∧
      (runLoop env link fuel i steps lr now logs).result.runId = some env.runId := by
  intro fuel
  induction fuel with
  | zero =>
    intro i steps lr now logs h
    simp [runLoop] at h
  | succ k ih =>
    intro i steps lr now logs
    simp only [runLoop]
    cases hrp : requestPlan (env.planAttempt i) with
    | none =>
      intro h
      simp at h
    | some plan =>
      simp only
      split
      · split
        · intro h; simp at h
        · intro h; simp at h
        · intro h
          exact ih _ _ _ _ _ h
      · intro _
        simp [captchaMidResult]

theorem runLoop_planExhausted (env : Env) (link : UnsubscribeLink) :
    ∀ fuel i steps lr now logs,
      (runLoop env link fuel i steps lr now logs).planExhausted = true →
      (runLoop env link fuel i steps lr now logs).result.success = false ∧
      (runLoop env link fuel i steps lr now logs).result.method = "ERROR" ∧
      (runLoop env link fuel i steps lr now logs).result.error =
        some "Invalid AI plan JSON" := by
  intro fuel
  induction fuel with
  | zero =>
    intro i steps lr now logs h
    simp [runLoop] at h
  | succ k ih =>
    intro i steps lr now logs
    simp only [runLoop]
    cases hrp : requestPlan (env.planAttempt i) with
    | none =>
      intro _
      simp [errorResult]
    | some plan =>
      simp only
      split
      · split
        · intro h; simp at h
        · intro h; simp at h
        · intro h
          exact ih _ _ _ _ _ h
      · intro h
        simp at h

-- ==================== Claim C1 ====================

/-- C1: the number of plan-request iterations of the main step loop never
exceeds MAX_STEPS, and exhausting the budget without a done or failed
transition still returns a normal UnsubscribeResult (the model is total,
and the exhaustion exit carries the ordinary AUTOMATED result with no
error field). -/
theorem c1_step_budget_bound (env : Env) (link : UnsubscribeLink) :
    (processUnsubscribe env link).planRequests ≤ MAX_STEPS ∧
    ((processUnsubscribe env link).budgetExhausted = true →
      (processUnsubscribe env link).result.method = "AUTOMATED" ∧
      (processUnsubscribe env link).result.error = none ∧
      (processUnsubscribe env link).result.runId = some env.runId) := by
  by_cases hm : link.method = Method.MAILTO
  · constructor
    · simp [processUnsubscribe, hm, MAX_STEPS]
    · intro h
      simp [processUnsubscribe, hm] at h
  · rcases hn : env.navError with _ | msg
    · cases hc : env.captchaCleared 0 with
      | false =>
        constructor
        · simp [processUnsubscribe, hm, hn, hc, MAX_STEPS]
        · intro h
          simp [processUnsubscribe, hm, hn, hc] at h
      | true =>
        rw [processUnsubscribe_eq_runLoop env link hm hn hc]
        constructor
        · simpa using runLoop_planRequests env link MAX_STEPS 0 [] "" env.t0 _
        · intro h
          have hb := runLoop_budget env link MAX_STEPS 0 [] "" env.t0 _ h
          exact ⟨hb.2.1, hb.2.2.2.1, hb.2.2.2.2⟩
    · constructor
      · simp [processUnsubscribe, hm, hn, MAX_STEPS]
      · intro h
        simp [processUnsubscribe, hm, hn] at h

/-- A budget-exhausting run via `c1_step_budget_bound`. -/
theorem c1_step_budget_bound_witness :
    (processUnsubscribe baseEnv getLink).planRequests ≤ MAX_STEPS ∧
    (processUnsubscribe baseEnv getLink).result.method = "AUTOMATED" :=
  ⟨(c1_step_budget_bound baseEnv getLink).1,
   ((c1_step_budget_bound baseEnv getLink).2 (by decide)).1⟩

-- ==================== Claim C2 ====================

/-- C2 counterexample: in `baseEnv` the run spends all five iterations
without a done or failed transition, yet the returned result is an
unqualified success — `success: true` with details "Unsubscribe
completed" — not an indeterminate or incomplete report. -/
theorem c2_counterexample_budget_reported_success :
    (processUnsubscribe baseEnv getLink).budgetExhausted = true ∧
    (processUnsubscribe baseEnv getLink).result.success = true ∧
    (processUnsubscribe baseEnv getLink).result.details =
      some "Unsubscribe completed" := by
  decide

/-- C2 amended: when a run exhausts the step budget without a done or
failed transition, `processUnsubscribe` returns the same unqualified
success result as a completed run (`success: true`, method AUTOMATED,
details "Unsubscribe completed"); the outcome is not reported as
indeterminate or incomplete. -/
theorem c2_amended_budget_exhaustion (env : Env) (link : UnsubscribeLink)
    (h : (processUnsubscribe env link).budgetExhausted = true) :
    (processUnsubscribe env link).result.success = true ∧
    (processUnsubscribe env link).result.method = "AUTOMATED" ∧
    (processUnsubscribe env link).result.details =
      some "Unsubscribe completed" := by
  by_cases hm : link.method = Method.MAILTO
  · simp [processUnsubscribe, hm] at h
  · rcases hn : env.navError with _ | msg
    · cases hc : env.captchaCleared 0 with
      | false =>
        simp [processUnsubscribe, hm, hn, hc] at h
      | true =>
        rw [processUnsubscribe_eq_runLoop env link hm hn hc] at h ⊢
        have hb := runLoop_budget env link MAX_STEPS 0 [] "" env.t0 _ h
        exact ⟨hb.1, hb.2.1, hb.2.2.1⟩
    · simp [processUnsubscribe, hm, hn] at h

/-- Concrete exhausted run via `c2_amended_budget_exhaustion`. -/
theorem c2_amended_budget_exhaustion_witness :
    (processUnsubscribe baseEnv getLink).result.success = true ∧
    (processUnsubscribe baseEnv getLink).result.method = "AUTOMATED" ∧
    (processUnsubscribe baseEnv getLink).result.details =
      some "Unsubscribe completed" :=
  c2_amended_budget_exhaustion baseEnv getLink (by decide)

-- ==================== Claim C3 ====================

/-- C3: whenever the challenge monitor reports the challenge not cleared
after the grace window — at the initial gate or at any mid-flow check —
the run terminates normally with `success: false`, `captchaBlocked: true`,
a full-page screenshot, the step history, a non-empty log and the run
id. -/
theorem c3_captcha_blocked (env : Env) (link : UnsubscribeLink)
    (h : (processUnsubscribe env link).captchaNotCleared = true) :
    (processUnsubscribe env link).result.success = false ∧
    (processUnsubscribe env link).result.captchaBlocked = some true ∧
    (processUnsubscribe env link).result.screenshot = some (shot env) ∧
    (processUnsubscribe env link).result.steps.isSome = true ∧
    (processUnsubscribe env link).result.logs ≠ [] ∧
    (processUnsubscribe env link).result.runId = some env.runId := by
  by_cases hm : link.method = Method.MAILTO
  · simp [processUnsubscribe, hm] at h
  · rcases hn : env.navError with _ | msg
    · cases hc : env.captchaCleared 0 with
      | false =>
        simp [processUnsubscribe, hm, hn, hc, captchaGateResult]
      | true =>
        rw [processUnsubscribe_eq_runLoop env link hm hn hc] at h ⊢
        exact runLoop_captcha env link MAX_STEPS 0 [] "" env.t0 _ h
    · simp [processUnsubscribe, hm, hn] at h

/-- A run blocked by a mid-flow challenge, via `c3_captcha_blocked`. -/
theorem c3_captcha_blocked_witness :
    (processUnsubscribe captchaEnv getLink).result.success = false ∧
    (processUnsubscribe captchaEnv getLink).result.captchaBlocked = some true ∧
    (processUnsubscribe captchaEnv getLink).result.screenshot =
      some (shot captchaEnv) ∧
    (processUnsubscribe captchaEnv getLink).result.steps.isSome = true ∧
    (processUnsubscribe captchaEnv getLink).result.logs ≠ [] ∧
    (processUnsubscribe captchaEnv getLink).result.runId = some captchaEnv.runId :=
  c3_captcha_blocked captchaEnv getLink (by decide)

-- ==================== Claim C4 ====================

/-- C4: if every parse attempt (the initial one and the
PLAN_PARSE_RETRIES retries) fails, the plan request fails and the run
returns an ERROR result carrying the parse error — never a silent
empty-success result; and the first attempt that parses is the plan the
loop proceeds with. -/
theorem c4_plan_format_error :
    (∀ (env : Env) (link : UnsubscribeLink),
      (processUnsubscribe env link).planExhausted = true →
      (processUnsubscribe env link).result.success = false ∧
      (processUnsubscribe env link).result.method = "ERROR" ∧
      (processUnsubscribe env link).result.error =
        some "Invalid AI plan JSON") ∧
    (∀ attempts : Nat → Option Plan,
      (∀ r, r ≤ PLAN_PARSE_RETRIES → attempts r = none) →
      requestPlan attempts = none) ∧
    (∀ (attempts : Nat → Option Plan) (p : Plan) (r : Nat),
      r ≤ PLAN_PARSE_RETRIES → attempts r = some p →
      (∀ s, s < r → attempts s = none) →
      requestPlan attempts = some p) := by
  refine ⟨?_, ?_, ?_⟩
  · intro env link h
    by_cases hm : link.method = Method.MAILTO
    · simp [processUnsubscribe, hm] at h
    · rcases hn : env.navError with _ | msg
      · cases hc : env.captchaCleared 0 with
        | false =>
          simp [processUnsubscribe, hm, hn, hc] at h
        | true =>
          rw [processUnsubscribe_eq_runLoop env link hm hn hc] at h ⊢
          exact runLoop_planExhausted env link MAX_STEPS 0 [] "" env.t0 _ h
      · simp [processUnsubscribe, hm, hn] at h
  · intro attempts h
    have h0 := h 0 (by simp [PLAN_PARSE_RETRIES])
    have h1 := h 1 (by simp [PLAN_PARSE_RETRIES])
    have h2 := h 2 (by simp [PLAN_PARSE_RETRIES])
    simp [requestPlan, planAttemptLoop, PLAN_PARSE_RETRIES, h0, h1, h2]
  · intro attempts p r hr hsome hnone
    simp only [PLAN_PARSE_RETRIES] at hr
    interval_cases r
    · simp [requestPlan, planAttemptLoop, hsome]
    · have h0 := hnone 0 (by omega)
      simp [requestPlan, planAttemptLoop, PLAN_PARSE_RETRIES, h0, hsome]
    · have h0 := hnone 0 (by omega)
      have h1 := hnone 1 (by omega)
      simp [requestPlan, planAttemptLoop, PLAN_PARSE_RETRIES, h0, h1, hsome]

/-- Scenario D at a concrete environment plus a successful second attempt,
via `c4_plan_format_error`. -/
theorem c4_plan_format_error_witness :
    ((processUnsubscribe badPlanEnv getLink).result.success = false ∧
     (processUnsubscribe badPlanEnv getLink).result.method = "ERROR" ∧
     (processUnsubscribe badPlanEnv getLink).result.error =
       some "Invalid AI plan JSON") ∧
    requestPlan (fun r => if r == 1 then some emptyPlan else none) =
      some emptyPlan :=
  ⟨c4_plan_format_error.1 badPlanEnv getLink (by decide),
   c4_plan_format_error.2.2 (fun r => if r == 1 then some emptyPlan else none)
     emptyPlan 1 (by decide) (by decide) (by
       intro s hs
       interval_cases s
       · rfl)⟩


-- ==================== Claim C6 ====================

def clickAct : PlanAction := { action := "click", selector := "#unsub" }

/-- C6 counterexample: a first attempt failing with an overlay-like
message ("Timeout ..." matches the signature list) does invoke the
consent handler, but when the handler reports that no dismissal occurred
the action is NOT retried — contradicting "the action is retried exactly
once". -/
theorem c6_counterexample_no_retry_without_dismissal :
    looksOverlay "Timeout 8000ms exceeded." = true ∧
    (performActionWithCookieRetry clickAct (some "Timeout 8000ms exceeded.")
        false none).consentInvoked = true ∧
    (performActionWithCookieRetry clickAct (some "Timeout 8000ms exceeded.")
        false none).retried = false := by
  decide

/-- C6 amended: on a first-attempt failure with an overlay-like message
the Consent Handler is invoked once with a shorter budget (7000 ms versus
the 15000 ms used on load) and the action is retried exactly once
provided the handler reports a dismissal; if it reports none, the failure
is reported without a retry.  A non-overlay failure, or a second failure
after the retry, is reported as a failed step — never thrown — and the
executor records one step per action so the run proceeds to the next
action of the plan. -/
theorem c6_amended_overlay_retry :
    (∀ (act : PlanAction) (o1 : Option String) (cleared : Bool)
        (o2 : Option String),
      performOnce act o1 = none →
      performActionWithCookieRetry act o1 cleared o2 =
        { ok := true, err := none, consentInvoked := false, retried := false }) ∧
    (∀ (act : PlanAction) (o1 o2 : Option String) (msg : String),
      performOnce act o1 = some msg → looksOverlay msg = true →
      (performActionWithCookieRetry act o1 true o2).consentInvoked = true ∧
      (performActionWithCookieRetry act o1 true o2).retried = true ∧
      (performOnce act o2 = none →
        (performActionWithCookieRetry act o1 true o2).ok = true) ∧
      (∀ m2, performOnce act o2 = some m2 →
        performActionWithCookieRetry act o1 true o2 =
          { ok := false, err := some m2, consentInvoked := true,
            retried := true })) ∧
    (∀ (act : PlanAction) (o1 o2 : Option String) (msg : String),
      performOnce act o1 = some msg → looksOverlay msg = true →
      performActionWithCookieRetry act o1 false o2 =
        { ok := false, err := some msg, consentInvoked := true,
          retried := false }) ∧
    (∀ (act : PlanAction) (o1 : Option String) (cleared : Bool)
        (o2 : Option String) (msg : String),
      performOnce act o1 = some msg → looksOverlay msg = false →
      performActionWithCookieRetry act o1 cleared o2 =
        { ok := false, err := some msg, consentInvoked := false,
          retried := false }) ∧
    RETRY_COOKIE_TIMEOUT_MS < ONLOAD_COOKIE_TIMEOUT_MS ∧
    (∀ (env : Env) (i : Nat) (acts : List PlanAction) (j : Nat) (lr : String)
        (now : Nat),
      (execActions env i acts j lr now).1.length = acts.length) := by
  refine ⟨?_, ?_, ?_, ?_, by decide, ?_⟩
  · intro act o1 cleared o2 h
    simp [performActionWithCookieRetry, h]
  · intro act o1 o2 msg h hov
    refine ⟨?_, ?_, ?_, ?_⟩
    · simp only [performActionWithCookieRetry, h, hov]
      cases performOnce act o2 <;> simp
    · simp only [performActionWithCookieRetry, h, hov]
      cases performOnce act o2 <;> simp
    · intro h2
      simp [performActionWithCookieRetry, h, hov, h2]
    · intro m2 h2
      simp [performActionWithCookieRetry, h, hov, h2]
  · intro act o1 o2 msg h hov
    simp [performActionWithCookieRetry, h, hov]
  · intro act o1 cleared o2 msg h hov
    simp [performActionWithCookieRetry, h, hov]
  · intro env i acts
    induction acts with
    | nil =>
      intro j lr now
      simp [execActions]
    | cons act rest ih =>
      intro j lr now
      simp only [execActions, List.length_cons]
      rw [ih]

/-- A non-overlay failure reported as a failed step, via
`c6_amended_overlay_retry`. -/
theorem c6_amended_overlay_retry_witness :
    performActionWithCookieRetry clickAct (some "strict mode violation")
        true none =
      { ok := false, err := some "strict mode violation",
        consentInvoked := false, retried := false } :=
  c6_amended_overlay_retry.2.2.2.1 clickAct (some "strict mode violation")
    true none "strict mode violation" rfl (by decide)


-- ==================== Claim C9 ====================

/-- Chronological well-formedness of a step list from a given instant:
every step starts no earlier than the bound, finishes no earlier than it
starts, and the next step starts no earlier than this one finished. -/
def chrono : Nat → List ActionStep → Prop
  | _, [] => True
  | t, s :: rest =>
    t ≤ s.startedAt ∧ s.startedAt ≤ s.finishedAt ∧ chrono s.finishedAt rest

theorem chrono_mono (l : List ActionStep) :
    ∀ a b, a ≤ b → chrono b l → chrono a l := by
  cases l with
  | nil => intro a b _ _; trivial
  | cons s rest =>
    intro a b hab h
    simp only [chrono] at h ⊢
    exact ⟨Nat.le_trans hab h.1, h.2.1, h.2.2⟩

theorem chrono_append (l₁ : List ActionStep) :
    ∀ (a c : Nat) (l₂ : List ActionStep), a ≤ c → chrono a l₁ →
      (∀ s ∈ l₁, s.finishedAt ≤ c) → chrono c l₂ → chrono a (l₁ ++ l₂) := by
  induction l₁ with
  | nil =>
    intro a c l₂ hac _ _ h2
    simpa using chrono_mono l₂ a c hac h2
  | cons s rest ih =>
    intro a c l₂ hac h1 hfin h2
    simp only [chrono, List.cons_append] at h1 ⊢
    obtain ⟨ha, hsf, hrest⟩ := h1
    refine ⟨ha, hsf, ?_⟩
    exact ih s.finishedAt c l₂ (hfin s (by simp)) hrest
      (fun x hx => hfin x (by simp [hx])) h2

theorem chrono_le (l : List ActionStep) :
    ∀ t, chrono t l → ∀ s ∈ l, s.startedAt ≤ s.finishedAt := by
  induction l with
  | nil => intro t _ s hs; simp at hs
  | cons x rest ih =>
    intro t h s hs
    simp only [chrono] at h
    rcases List.mem_cons.mp hs with h' | h'
    · subst h'; exact h.2.1
    · exact ih x.finishedAt h.2.2 s h'

/-- The steps recorded for one plan are chronologically ordered starting
at the current clock, the clock only moves forward, and every recorded
step's duration is the difference of its timestamps. -/
theorem execActions_spec (env : Env) (i : Nat) :
    ∀ (acts : List PlanAction) (j : Nat) (lr : String) (now : Nat),
      chrono now (execActions env i acts j lr now).1 ∧
      now ≤ (execActions env i acts j lr now).2.2 ∧
      (∀ s ∈ (execActions env i acts j lr now).1,
        s.finishedAt ≤ (execActions env i acts j lr now).2.2 ∧
        s.durationMs = s.finishedAt - s.startedAt) := by
  intro acts
  induction acts with
  | nil =>
    intro j lr now
    refine ⟨trivial, Nat.le_refl _, ?_⟩
    intro s hs
    simp [execActions] at hs
  | cons act rest ih =>
    intro j lr now
    simp only [execActions]
    obtain ⟨ih1, ih2, ih3⟩ := ih (j + 1)
      (if (performActionWithCookieRetry act (env.act1Err i j)
            (env.actCookieCleared i j) (env.act2Err i j)).ok then "success"
        else "error: " ++
          ((performActionWithCookieRetry act (env.act1Err i j)
            (env.actCookieCleared i j) (env.act2Err i j)).err.getD
              "unknown error"))
      (now + env.dtAction i j)
    refine ⟨⟨Nat.le_refl now, Nat.le_add_right now _, ih1⟩,
      Nat.le_trans (Nat.le_add_right now _) ih2, ?_⟩
    intro s hs
    rcases List.mem_cons.mp hs with h' | h'
    · subst h'
      exact ⟨ih2, rfl⟩
    · exact ih3 s h'

/-- Relative to a chronologically well-formed accumulated history whose
steps all finished by the current clock, the main loop only ever appends:
the final result's step list is the history followed by some tail, still
chronologically ordered with exact durations. -/
theorem runLoop_steps (env : Env) (link : UnsubscribeLink) :
    ∀ fuel i steps lr now logs,
      chrono 0 steps →
      (∀ s ∈ steps, s.finishedAt ≤ now ∧
        s.durationMs = s.finishedAt - s.startedAt) →
      ∃ tail,
        (runLoop env link fuel i steps lr now logs).result.steps =
          some (steps ++ tail) ∧
        chrono 0 (steps ++ tail) ∧
        (∀ s ∈ steps ++ tail, s.durationMs = s.finishedAt - s.startedAt) := by
  intro fuel
  induction fuel with
  | zero =>
    intro i steps lr now logs h1 h2
    refine ⟨[], ?_, ?_, ?_⟩
    · simp [runLoop, finalSuccessResult]
    · simpa using h1
    · simpa using fun s hs => (h2 s hs).2
  | succ k ih =>
    intro i steps lr now logs h1 h2
    simp only [runLoop]
    cases hrp : requestPlan (env.planAttempt i) with
    | none =>
      refine ⟨[], ?_, ?_, ?_⟩
      · simp [errorResult]
      · simpa using h1
      · simpa using fun s hs => (h2 s hs).2
    | some plan =>
      simp only
      obtain ⟨e1, e2, e3⟩ := execActions_spec env i plan.actions 0 lr now
      have hch : chrono 0
          (steps ++ (execActions env i plan.actions 0 lr now).1) :=
        chrono_append steps 0 now _ (Nat.zero_le now) h1
          (fun s hs => (h2 s hs).1) e1
      have hdur : ∀ s ∈ steps ++ (execActions env i plan.actions 0 lr now).1,
          s.durationMs = s.finishedAt - s.startedAt := by
        intro s hs
        rcases List.mem_append.mp hs with h' | h'
        · exact (h2 s h').2
        · exact (e3 s h').2
      have hfin : ∀ s ∈ steps ++ (execActions env i plan.actions 0 lr now).1,
          s.finishedAt ≤
            (execActions env i plan.actions 0 lr now).2.2 + env.dtIter i := by
        intro s hs
        rcases List.mem_append.mp hs with h' | h'
        · exact Nat.le_trans (h2 s h').1
            (Nat.le_trans e2 (Nat.le_add_right _ _))
        · exact Nat.le_trans (e3 s h').1 (Nat.le_add_right _ _)
      split
      · split
        · refine ⟨(execActions env i plan.actions 0 lr now).1, ?_, hch, hdur⟩
          simp [finalSuccessResult]
        · refine ⟨(execActions env i plan.actions 0 lr now).1, ?_, hch, hdur⟩
          simp [failurePhraseResult]
        · obtain ⟨tail, ht1, ht2, ht3⟩ := ih (i + 1) _ _ _ _ hch
            (fun s hs => ⟨hfin s hs, hdur s hs⟩)
          refine ⟨(execActions env i plan.actions 0 lr now).1 ++ tail,
            ?_, ?_, ?_⟩
          · rw [← List.append_assoc]
            exact ht1
          · rw [← List.append_assoc]
            exact ht2
          · intro s hs
            apply ht3
            rw [← List.append_assoc] at hs
            exact hs
      · refine ⟨(execActions env i plan.actions 0 lr now).1, ?_, hch, hdur⟩
        simp [captchaMidResult]

/-- C9: exactly one UnsubscribeResult is produced per run (the model is a
function of the environment); every returned step list is chronologically
ordered with `startedAt ≤ finishedAt` and `durationMs = finishedAt −
startedAt` on every step; and the loop is append-only — the steps already
accumulated are a prefix of the steps of whatever result it returns. -/
theorem c9_steps_chronology :
    (∀ (env : Env) (link : UnsubscribeLink),
      ∃! info, processUnsubscribe env link = info) ∧
    (∀ (env : Env) (link : UnsubscribeLink),
      chrono 0 ((processUnsubscribe env link).result.steps.getD []) ∧
      ∀ s ∈ (processUnsubscribe env link).result.steps.getD [],
        s.startedAt ≤ s.finishedAt ∧
        s.durationMs = s.finishedAt - s.startedAt) ∧
    (∀ (env : Env) (link : UnsubscribeLink) (fuel i : Nat)
        (steps : List ActionStep) (lr : String) (now : Nat)
        (logs : List String),
      chrono 0 steps →
      (∀ s ∈ steps, s.finishedAt ≤ now ∧
        s.durationMs = s.finishedAt - s.startedAt) →
      ∃ tail, (runLoop env link fuel i steps lr now logs).result.steps =
        some (steps ++ tail)) := by
  refine ⟨?_, ?_, ?_⟩
  · intro env link
    exact ⟨processUnsubscribe env link, rfl, fun y hy => hy.symm⟩
  · intro env link
    by_cases hm : link.method = Method.MAILTO
    · constructor
      · simp [processUnsubscribe, hm, chrono]
      · simp [processUnsubscribe, hm]
    · rcases hn : env.navError with _ | msg
      · cases hc : env.captchaCleared 0 with
        | false =>
          constructor
          · simp [processUnsubscribe, hm, hn, hc, captchaGateResult, chrono]
          · simp [processUnsubscribe, hm, hn, hc, captchaGateResult]
        | true =>
          rw [processUnsubscribe_eq_runLoop env link hm hn hc]
          obtain ⟨tail, ht1, ht2, ht3⟩ :=
            runLoop_steps env link MAX_STEPS 0 [] "" env.t0
              ["[processUnsubscribe] Starting on link",
               "[processUnsubscribe] Navigating"]
              trivial (by simp)
          rw [ht1]
          simp only [List.nil_append] at ht2 ht3 ⊢
          refine ⟨by simpa using ht2, ?_⟩
          intro s hs
          simp only [Option.getD_some] at hs
          exact ⟨chrono_le tail 0 ht2 s hs, ht3 s hs⟩
      · constructor
        · simp [processUnsubscribe, hm, hn, errorResult, chrono]
        · simp [processUnsubscribe, hm, hn, errorResult]
  · intro env link fuel i steps lr now logs h1 h2
    obtain ⟨tail, ht1, _, _⟩ := runLoop_steps env link fuel i steps lr now logs h1 h2
    exact ⟨tail, ht1⟩

/-- The append-only property at a concrete run, via `c9_steps_chronology`. -/
theorem c9_steps_chronology_witness :
    ∃ tail,
      (runLoop baseEnv getLink 1 0 [] "" 0 ["log"]).result.steps =
        some ([] ++ tail) :=
  c9_steps_chronology.2.2 baseEnv getLink 1 0 [] "" 0 ["log"] trivial (by simp)


-- ==================== Claim C10 ====================

theorem lastChars_data (n : Nat) (s : String) :
    (lastChars n s).data = s.data.drop (s.data.length - n) := rfl

theorem string_length_data (s : String) : s.length = s.data.length := rfl

theorem dedupAux_subset :
    ∀ (xs seen : List String) (y : String), y ∈ dedupAux seen xs → y ∈ xs := by
  intro xs
  induction xs with
  | nil =>
    intro seen y h
    simp [dedupAux] at h
  | cons x rest ih =>
    intro seen y h
    simp only [dedupAux] at h
    split at h
    · exact List.mem_cons_of_mem x (ih seen y h)
    · rcases List.mem_cons.mp h with h' | h'
      · subst h'
        exact List.mem_cons_self _ _
      · exact List.mem_cons_of_mem x (ih _ y h')

/-- C10: `extractUnsubscribeLinks` is total and always yields a list.  The
snippet sent to the oracle is the input itself when it has at most 5999
characters and otherwise its last 5999 characters (a suffix of length
exactly 5999); a throwing oracle call yields the empty list; a reply
parsing to a non-array yields the empty list; a reply whose parse fails
yields the regex fallback, every element of which matches the
unsubscribe/opt-out/preferences pattern, has text "Unsubscribe", and is
marked MAILTO exactly when its url starts with "mailto:" (GET
otherwise). -/
theorem c10_extract_robust :
    (∀ (oracle : String → AiCall) (html : String), html.length ≤ 5999 →
      (extractUnsubscribeLinks oracle html).2 = html) ∧
    (∀ (oracle : String → AiCall) (html : String), 5999 < html.length →
      (extractUnsubscribeLinks oracle html).2.length = 5999 ∧
      ∃ pre, html.data = pre ++ (extractUnsubscribeLinks oracle html).2.data) ∧
    (∀ (oracle : String → AiCall) (html : String),
      oracle (extractUnsubscribeLinks oracle html).2 = AiCall.throws →
      (extractUnsubscribeLinks oracle html).1 = []) ∧
    (∀ (oracle : String → AiCall) (html : String),
      oracle (extractUnsubscribeLinks oracle html).2 =
        AiCall.returns ParseOutcome.notArr →
      (extractUnsubscribeLinks oracle html).1 = []) ∧
    (∀ (oracle : String → AiCall) (html : String),
      oracle (extractUnsubscribeLinks oracle html).2 =
        AiCall.returns ParseOutcome.failure →
      (extractUnsubscribeLinks oracle html).1 =
        regexFallback (extractUnsubscribeLinks oracle html).2) ∧
    (∀ (s : String) (l : UnsubscribeLink), l ∈ regexFallback s →
      unsubPattern l.url = true ∧ l.text = "Unsubscribe" ∧
      (l.method = Method.MAILTO ↔ strStartsWith l.url "mailto:" = true)) := by
  refine ⟨?_, ?_, ?_, ?_, ?_, ?_⟩
  · intro oracle html h
    simp [extractUnsubscribeLinks, if_neg (Nat.not_lt.mpr h)]
  · intro oracle html h
    have hsnip : (extractUnsubscribeLinks oracle html).2 = lastChars 5999 html := by
      simp [extractUnsubscribeLinks, if_pos h]
    rw [hsnip]
    have hlen : html.length = html.data.length := string_length_data html
    constructor
    · rw [string_length_data, lastChars_data, List.length_drop]
      omega
    · rw [lastChars_data]
      exact ⟨html.data.take (html.data.length - 5999),
        (List.take_append_drop _ _).symm⟩
  · intro oracle html h
    simp only [extractUnsubscribeLinks] at h ⊢
    rw [h]
  · intro oracle html h
    simp only [extractUnsubscribeLinks] at h ⊢
    rw [h]
  · intro oracle html h
    simp only [extractUnsubscribeLinks] at h ⊢
    rw [h]
  · intro s l hl
    simp only [regexFallback, List.mem_map] at hl
    obtain ⟨url, hurl, rfl⟩ := hl
    have hfil : url ∈ (matchAllHrefs s).filter unsubPattern :=
      dedupAux_subset _ [] url hurl
    have hpat : unsubPattern url = true := (List.mem_filter.mp hfil).2
    refine ⟨hpat, rfl, ?_⟩
    cases hsw : strStartsWith url "mailto:" with
    | true => simp [hsw]
    | false => simp [hsw]

def failOracle : String → AiCall := fun _ => AiCall.returns ParseOutcome.failure

/-- A concrete parse-failure fallback, via `c10_extract_robust`. -/
theorem c10_extract_robust_witness :
    (extractUnsubscribeLinks failOracle
        "<a href=\"mailto:u@x.com?subject=unsubscribe\">u</a>").1 =
      regexFallback "<a href=\"mailto:u@x.com?subject=unsubscribe\">u</a>" :=
  c10_extract_robust.2.2.2.2.1 failOracle
    "<a href=\"mailto:u@x.com?subject=unsubscribe\">u</a>" rfl

end UnsubAgent
